import Mathlib

/-!
Verification of hystrix-py (`hystrix/command_metrics.py`,
`hystrix/command_properties.py`): a shallow embedding of the command-metrics
health-snapshot logic and of the command-properties resolution, with theorems
about the published health counts, the snapshot throttling discipline, the
mark operations, and the property-precedence resolution.

Python integers are modelled as `ℤ`; Python 3 true division of integers is
modelled as exact division in `ℚ`; `int()` applied to the quotient is
truncation toward zero.  Stateful methods are modelled as explicit
state-passing functions.
-/

set_option linter.unusedVariables false

/-- The event kinds handed to the event notifier
(`hystrix/event_type.py` is referenced by `command_metrics.py`; only the
kinds used there are modelled). -/
inductive EventType
  | SUCCESS
  | FAILURE
  | TIMEOUT
  | BAD_REQUEST
  | THREAD_POOL_REJECTED
  | SEMAPHORE_REJECTED
  | SHORT_CIRCUITED
  deriving DecidableEq

/-- The event kinds counted by the rolling number
(`hystrix/rolling_number.py` is referenced by `command_metrics.py`; only the
kinds used there are modelled). -/
inductive RollingNumberEvent
  | SUCCESS
  | FAILURE
  | TIMEOUT
  | BAD_REQUEST
  | THREAD_POOL_REJECTED
  | SEMAPHORE_REJECTED
  | SHORT_CIRCUITED
  deriving DecidableEq

/-- `HealthCounts.__init__` (command_metrics.py:177-180): stores the three
values given to the constructor. -/
structure HealthCounts where
  _total_count : ℤ
  _error_count : ℤ
  _error_percentage : ℤ
  deriving DecidableEq

/-- `HealthCounts.total_requests` (command_metrics.py:182-188). -/
def HealthCounts.total_requests (h : HealthCounts) : ℤ := h._total_count

/-- `HealthCounts.error_count` (command_metrics.py:190-196). -/
def HealthCounts.error_count (h : HealthCounts) : ℤ := h._error_count

/-- `HealthCounts.error_percentage` (command_metrics.py:198-204). -/
def HealthCounts.error_percentage (h : HealthCounts) : ℤ := h._error_percentage

/-- Python `int()` applied to a float value (represented by the exact
rational it denotes): truncation toward zero (floor for non-negative
arguments, ceiling for negative ones). -/
def pyInt (q : ℚ) : ℤ := if 0 ≤ q then ⌊q⌋ else ⌈q⌉

/-- Fuel-driven floor of the base-2 logarithm (the fuel argument only
bounds the recursion depth; any fuel at least the value itself is enough). -/
def log2fuel : ℕ → ℕ → ℕ
  | 0, _ => 0
  | f + 1, n => if n < 2 then 0 else log2fuel f (n / 2) + 1

/-- Floor of the base-2 logarithm of a positive natural number. -/
def nlog2 (n : ℕ) : ℕ := log2fuel n n

/-- Round a rational to the nearest integer, ties to even. -/
def rhe (x : ℚ) : ℤ :=
  if x - ⌊x⌋ < 1 / 2 then ⌊x⌋
  else if 1 / 2 < x - ⌊x⌋ then ⌊x⌋ + 1
  else if ⌊x⌋ % 2 = 0 then ⌊x⌋ else ⌊x⌋ + 1

/-- Binary exponent: for `0 < q` the unique `E` with `2 ^ E ≤ q < 2 ^ (E+1)`. -/
def qexp (q : ℚ) : ℤ :=
  let g : ℤ := (nlog2 q.num.natAbs : ℤ) - (nlog2 q.den : ℤ)
  if q < 2 ^ g then g - 1 else g

/-- Round a positive rational to 53 significant bits (nearest, ties to
even): the mantissa grid of an IEEE-754 binary64 value. -/
def roundPos (q : ℚ) : ℚ :=
  (rhe (q * 2 ^ ((52 : ℤ) - qexp q)) : ℚ) * 2 ^ (qexp q - (52 : ℤ))

/-- IEEE-754 binary64 rounding (round to nearest, ties to even), as the
exact rational a Python float result denotes.  CPython evaluates
`int / int` as a correctly rounded double and `float * int` as a correctly
rounded double product, so each arithmetic step is one application of this
rounding.  The binary64 exponent range is not modelled (no overflow to
infinity, no subnormal truncation); the quantities rounded here lie in
`[0, 100]`, far inside the range where binary64 is a pure 53-bit
significand grid. -/
def roundDouble (q : ℚ) : ℚ :=
  if 0 < q then roundPos q
  else if q < 0 then -roundPos (-q)
  else 0

/-- Modelled from the spec: `RollingNumber.rolling_sum(kind)`
(`hystrix/rolling_number.py` is not among the sources; spec §4.2 says it
returns the windowed sum for `kind`).  The rolling-window state is
abstracted to its current per-kind sums, so reading the rolling sum is
reading the per-kind value. -/
def rolling_sum (counter : RollingNumberEvent → ℤ) (ev : RollingNumberEvent) : ℤ :=
  counter ev

/-- Modelled from the spec: `RollingNumber.increment(kind)`
(`hystrix/rolling_number.py` is not among the sources; spec §4.2 says it
applies 1 to the slot for `kind`, leaving every other kind unchanged). -/
def increment (counter : RollingNumberEvent → ℤ) (ev : RollingNumberEvent) :
    RollingNumberEvent → ℤ :=
  fun e => if e = ev then counter e + 1 else counter e

/-- Modelled from the spec: `AtomicLong.compare_and_set(expect, update)` of
the external `atomos` package (spec §9 maps it to the standard
compare-and-exchange primitive): if the current value equals `expect` it is
replaced by `update` and the call reports success, otherwise the value is
left unchanged and the call reports failure.  The current value is passed
explicitly; the pair returned is (success flag, value afterwards). -/
def compare_and_set (current expect update : ℤ) : Bool × ℤ :=
  if current = expect then (true, update) else (false, current)

/-- The mutable fields of `CommandMetrics` that the claims concern
(command_metrics.py:60-69): the rolling counter (abstracted to its per-kind
sums), `health_counts_snapshot`, and the `last_health_counts_snapshot`
atomic marker. -/
structure MetricsState where
  counter : RollingNumberEvent → ℤ
  health_counts_snapshot : Option HealthCounts
  last_health_counts_snapshot : ℤ

/-- `CommandMetrics.mark_success` (command_metrics.py:71-84): calls
`event_notifier.mark_event(EventType.SUCCESS, key)` — with no exception
handling — and then increments the SUCCESS rolling counter.  The notifier
is a parameter; a raising notifier is one returning `Except.error`.  On
success the result also carries the list of notifications fired. -/
def mark_success (mark_event : EventType → String → Except String Unit)
    (command_metrics_key : String) (duration : ℤ)
    (counter : RollingNumberEvent → ℤ) :
    Except String ((RollingNumberEvent → ℤ) × List (EventType × String)) :=
  match mark_event EventType.SUCCESS command_metrics_key with
  | Except.error e => Except.error e
  | Except.ok _ =>
      Except.ok (increment counter RollingNumberEvent.SUCCESS,
        [(EventType.SUCCESS, command_metrics_key)])

/-- `CommandMetrics.mark_failure` (command_metrics.py:86-99). -/
def mark_failure (mark_event : EventType → String → Except String Unit)
    (command_metrics_key : String) (duration : ℤ)
    (counter : RollingNumberEvent → ℤ) :
    Except String ((RollingNumberEvent → ℤ) × List (EventType × String)) :=
  match mark_event EventType.FAILURE command_metrics_key with
  | Except.error e => Except.error e
  | Except.ok _ =>
      Except.ok (increment counter RollingNumberEvent.FAILURE,
        [(EventType.FAILURE, command_metrics_key)])

/-- `CommandMetrics.mark_timeout` (command_metrics.py:101-115). -/
def mark_timeout (mark_event : EventType → String → Except String Unit)
    (command_metrics_key : String) (duration : ℤ)
    (counter : RollingNumberEvent → ℤ) :
    Except String ((RollingNumberEvent → ℤ) × List (EventType × String)) :=
  match mark_event EventType.TIMEOUT command_metrics_key with
  | Except.error e => Except.error e
  | Except.ok _ =>
      Except.ok (increment counter RollingNumberEvent.TIMEOUT,
        [(EventType.TIMEOUT, command_metrics_key)])

/-- `CommandMetrics.mark_bad_request` (command_metrics.py:117-132). -/
def mark_bad_request (mark_event : EventType → String → Except String Unit)
    (command_metrics_key : String) (duration : ℤ)
    (counter : RollingNumberEvent → ℤ) :
    Except String ((RollingNumberEvent → ℤ) × List (EventType × String)) :=
  match mark_event EventType.BAD_REQUEST command_metrics_key with
  | Except.error e => Except.error e
  | Except.ok _ =>
      Except.ok (increment counter RollingNumberEvent.BAD_REQUEST,
        [(EventType.BAD_REQUEST, command_metrics_key)])

/-- The snapshot recomputation body of `CommandMetrics.health_counts`
(command_metrics.py:151-164): the six rolling sums, `total_count`,
`error_count`, and `error_percentage = int(error_count / total_count * 100)`
when `total_count > 0` else `0`, packed into a fresh `HealthCounts`.
Under Python 3 the percentage expression is evaluated in IEEE-754 doubles:
the true division `error_count / total_count` produces the correctly
rounded double of the exact quotient, the multiplication by 100 rounds the
exact product of that double again, and `int()` truncates toward zero —
hence the two `roundDouble` applications. -/
def fresh_health_counts (counter : RollingNumberEvent → ℤ) : HealthCounts :=
  let success := rolling_sum counter RollingNumberEvent.SUCCESS
  let failure := rolling_sum counter RollingNumberEvent.FAILURE
  let timeout := rolling_sum counter RollingNumberEvent.TIMEOUT
  let thread_pool_rejected := rolling_sum counter RollingNumberEvent.THREAD_POOL_REJECTED
  let semaphore_rejected := rolling_sum counter RollingNumberEvent.SEMAPHORE_REJECTED
  let short_circuited := rolling_sum counter RollingNumberEvent.SHORT_CIRCUITED
  let total_count := failure + success + timeout + thread_pool_rejected + short_circuited + semaphore_rejected
  let error_count := failure + timeout + thread_pool_rejected + short_circuited + semaphore_rejected
  let error_percentage : ℤ :=
    if 0 < total_count then
      pyInt (roundDouble (roundDouble ((error_count : ℚ) / (total_count : ℚ)) * 100))
    else 0
  ⟨total_count, error_count, error_percentage⟩

/-- `CommandMetrics.health_counts` (command_metrics.py:134-166).
`interval` is `properties.metrics_health_snapshot_interval_in_milliseconds()`
and `now` is `ActualTime().current_time_in_millis()`; the method reads the
marker, and when the interval has elapsed or no snapshot exists it attempts
`compare_and_set` on the marker and, on success, publishes a fresh snapshot.
The returned pair is (value returned, state afterwards). -/
def health_counts (interval now : ℤ) (st : MetricsState) :
    Option HealthCounts × MetricsState :=
  let last_time := st.last_health_counts_snapshot
  let current_time := now
  if decide (interval ≤ current_time - last_time) || st.health_counts_snapshot.isNone then
    let cas := compare_and_set st.last_health_counts_snapshot last_time current_time
    if cas.1 then
      let snap := fresh_health_counts st.counter
      (some snap,
        { st with health_counts_snapshot := some snap,
                  last_health_counts_snapshot := cas.2 })
    else
      (st.health_counts_snapshot, { st with last_health_counts_snapshot := cas.2 })
  else
    (st.health_counts_snapshot, st)

/-! ## CommandProperties (`hystrix/command_properties.py`) -/

/-- Default values, class attributes of `CommandProperties`
(command_properties.py:11-79). -/
def default_metrics_rolling_statistical_window : ℤ := 10000

def default_metrics_rolling_statistical_window_buckets : ℤ := 10

def default_circuit_breaker_request_volume_threshold : ℤ := 20

def default_circuit_breaker_sleep_window_in_milliseconds : ℤ := 5000

def default_circuit_breaker_error_threshold_percentage : ℤ := 50

def default_circuit_breaker_force_open : Bool := false

def default_circuit_breaker_force_closed : Bool := false

def default_execution_timeout_in_milliseconds : ℤ := 1000

def default_execution_isolation_strategy : ℤ := 0

def default_execution_isolation_thread_interrupt_on_timeout : Bool := true

def default_metrics_rolling_percentile_enabled : Bool := true

def default_request_cache_enabled : Bool := true

def default_fallback_isolation_semaphore_max_concurrent_requests : ℤ := 10

def default_fallback_enabled : Bool := true

def default_execution_isolation_semaphore_max_concurrent_requests : ℤ := 10

def default_request_log_enabled : Bool := true

def default_circuit_breaker_enabled : Bool := true

def default_metrics_rolling_percentile_window : ℤ := 60000

def default_metrics_rolling_percentile_window_buckets : ℤ := 6

def default_metrics_rolling_percentile_bucket_size : ℤ := 100

def default_metrics_health_snapshot_interval_in_milliseconds : ℤ := 500

/-- `CommandProperties.Setter` (command_properties.py:528-562): a record of
optional overrides, every field `None` when freshly constructed.  Field
order follows `Setter.__init__`. -/
structure Setter where
  circuit_breaker_enabled : Option Bool
  circuit_breaker_error_threshold_percentage : Option ℤ
  circuit_breaker_force_closed : Option Bool
  circuit_breaker_force_open : Option Bool
  circuit_breaker_request_volume_threshold : Option ℤ
  circuit_breaker_sleep_window_in_milliseconds : Option ℤ
  execution_isolation_semaphore_max_concurrent_requests : Option ℤ
  execution_isolation_strategy : Option ℤ
  execution_isolation_thread_interrupt_on_timeout : Option Bool
  execution_timeout_in_milliseconds : Option ℤ
  fallback_isolation_semaphore_max_concurrent_requests : Option ℤ
  fallback_enabled : Option Bool
  metrics_health_snapshot_interval_in_milliseconds : Option ℤ
  metrics_rolling_percentile_bucket_size : Option ℤ
  metrics_rolling_percentile_enabled : Option Bool
  metrics_rolling_percentile_window_in_milliseconds : Option ℤ
  metrics_rolling_percentile_window_buckets : Option ℤ
  metrics_rolling_statistical_window_in_milliseconds : Option ℤ
  metrics_rolling_statistical_window_buckets : Option ℤ
  request_cache_enabled : Option Bool
  request_log_enabled : Option Bool
  deriving DecidableEq

/-- `Setter.__init__` (command_properties.py:541-562): every override absent;
this is also what the factory method `CommandProperties.setter()` returns. -/
def Setter.new : Setter :=
  ⟨none, none, none, none, none, none, none, none, none, none, none,
   none, none, none, none, none, none, none, none, none, none⟩

/-- The resolved `CommandProperties` instance: `command_key`,
`property_prefix`, and the 21 private attributes assigned by `__init__`
(command_properties.py:81-257), in assignment order. -/
structure CommandProperties where
  command_key : String
  property_prefix : Option String
  _circuit_breaker_enabled : Bool
  _circuit_breaker_request_volume_threshold : ℤ
  _circuit_breaker_sleep_window_in_milliseconds : ℤ
  _circuit_breaker_error_threshold_percentage : ℤ
  _circuit_breaker_force_open : Bool
  _circuit_breaker_force_closed : Bool
  _execution_isolation_strategy : ℤ
  _execution_timeout_in_milliseconds : ℤ
  _execution_isolation_semaphore_max_concurrent_requests : ℤ
  _fallback_isolation_semaphore_max_concurrent_requests : ℤ
  _fallback_enabled : Bool
  _execution_isolation_thread_interrupt_on_timeout : Bool
  _metrics_rolling_statistical_window_in_milliseconds : ℤ
  _metrics_rolling_statistical_window_buckets : ℤ
  _metrics_rolling_percentile_enabled : Bool
  _metrics_rolling_percentile_window_in_milliseconds : ℤ
  _metrics_rolling_percentile_window_buckets : ℤ
  _metrics_rolling_percentile_bucket_size : ℤ
  _metrics_health_snapshot_interval_in_milliseconds : ℤ
  _request_log_enabled : Bool
  _request_cache_enabled : Bool
  deriving DecidableEq

/-- `CommandProperties._property` (command_properties.py:512-521): the setter
override takes precedence over the default; the prefix, key and property
name are not consulted. -/
def CommandProperties._property {α : Type} ( property_prefix : Option String)
    (command_key instance_property : String) (default_value : α)
    (setter_override_value : Option α) : α :=
  match setter_override_value with
  | some v => v
  | none => default_value

/-- `CommandProperties.__init__` (command_properties.py:81-257): resolves
every property through `_property`, in source order, with the documented
default and the setter override. -/
def CommandProperties.build (command_key : String) (setter : Setter)
    ( property_prefix : Option String) : CommandProperties :=
  { command_key := command_key
    property_prefix := property_prefix
    _circuit_breaker_enabled :=
      CommandProperties._property property_prefix command_key
        "circuit_breaker.enabled" default_circuit_breaker_enabled
        setter.circuit_breaker_enabled
    _circuit_breaker_request_volume_threshold :=
      CommandProperties._property property_prefix command_key
        "circuit_breaker.request_volume_threshold"
        default_circuit_breaker_request_volume_threshold
        setter.circuit_breaker_request_volume_threshold
    _circuit_breaker_sleep_window_in_milliseconds :=
      CommandProperties._property property_prefix command_key
        "circuit_breaker.sleep_window_in_milliseconds"
        default_circuit_breaker_sleep_window_in_milliseconds
        setter.circuit_breaker_sleep_window_in_milliseconds
    _circuit_breaker_error_threshold_percentage :=
      CommandProperties._property property_prefix command_key
        "circuit_breaker.error_threshold_percentage"
        default_circuit_breaker_error_threshold_percentage
        setter.circuit_breaker_error_threshold_percentage
    _circuit_breaker_force_open :=
      CommandProperties._property property_prefix command_key
        "circuit_breaker.force_open" default_circuit_breaker_force_open
        setter.circuit_breaker_force_open
    _circuit_breaker_force_closed :=
      CommandProperties._property property_prefix command_key
        "circuit_breaker.force_closed" default_circuit_breaker_force_closed
        setter.circuit_breaker_force_closed
    _execution_isolation_strategy :=
      CommandProperties._property property_prefix command_key
        "execution.isolation.strategy" default_execution_isolation_strategy
        setter.execution_isolation_strategy
    _execution_timeout_in_milliseconds :=
      CommandProperties._property property_prefix command_key
        "execution.isolation.thread.timeout_in_milliseconds"
        default_execution_timeout_in_milliseconds
        setter.execution_timeout_in_milliseconds
    _execution_isolation_semaphore_max_concurrent_requests :=
      CommandProperties._property property_prefix command_key
        "execution.isolation.semaphore.max_concurrent_requests"
        default_execution_isolation_semaphore_max_concurrent_requests
        setter.execution_isolation_semaphore_max_concurrent_requests
    _fallback_isolation_semaphore_max_concurrent_requests :=
      CommandProperties._property property_prefix command_key
        "fallback.isolation.semaphore.max_concurrent_requests"
        default_fallback_isolation_semaphore_max_concurrent_requests
        setter.fallback_isolation_semaphore_max_concurrent_requests
    _fallback_enabled :=
      CommandProperties._property property_prefix command_key
        "fallback.enabled" default_fallback_enabled
        setter.fallback_enabled
    _execution_isolation_thread_interrupt_on_timeout :=
      CommandProperties._property property_prefix command_key
        "execution.isolation.thread.interrupt_on_timeout"
        default_execution_isolation_thread_interrupt_on_timeout
        setter.execution_isolation_thread_interrupt_on_timeout
    _metrics_rolling_statistical_window_in_milliseconds :=
      CommandProperties._property property_prefix command_key
        "metrics.rolling_stats.time_in_milliseconds"
        default_metrics_rolling_statistical_window
        setter.metrics_rolling_statistical_window_in_milliseconds
    _metrics_rolling_statistical_window_buckets :=
      CommandProperties._property property_prefix command_key
        "metrics.rolling_stats.num_buckets"
        default_metrics_rolling_statistical_window_buckets
        setter.metrics_rolling_statistical_window_buckets
    _metrics_rolling_percentile_enabled :=
      CommandProperties._property property_prefix command_key
        "metrics.rolling_percentile.enabled"
        default_metrics_rolling_percentile_enabled
        setter.metrics_rolling_percentile_enabled
    _metrics_rolling_percentile_window_in_milliseconds :=
      CommandProperties._property property_prefix command_key
        "metrics.rolling_percentile.time_in_milliseconds"
        default_metrics_rolling_percentile_window
        setter.metrics_rolling_percentile_window_in_milliseconds
    _metrics_rolling_percentile_window_buckets :=
      CommandProperties._property property_prefix command_key
        "metrics.rolling_percentile.num_buckets"
        default_metrics_rolling_percentile_window_buckets
        setter.metrics_rolling_percentile_window_buckets
    _metrics_rolling_percentile_bucket_size :=
      CommandProperties._property property_prefix command_key
        "metrics.rolling_percentile.bucket_size"
        default_metrics_rolling_percentile_bucket_size
        setter.metrics_rolling_percentile_bucket_size
    _metrics_health_snapshot_interval_in_milliseconds :=
      CommandProperties._property property_prefix command_key
        "metrics.health_snapshot.interval_in_milliseconds"
        default_metrics_health_snapshot_interval_in_milliseconds
        setter.metrics_health_snapshot_interval_in_milliseconds
    _request_log_enabled :=
      CommandProperties._property property_prefix command_key
        "request_log.enabled" default_request_log_enabled
        setter.request_log_enabled
    _request_cache_enabled :=
      CommandProperties._property property_prefix command_key
        "request_cache.enabled" default_request_cache_enabled
        setter.request_cache_enabled }

/-- `CommandProperties.circuit_breaker_enabled` (command_properties.py:267-279). -/
def CommandProperties.circuit_breaker_enabled (p : CommandProperties) : Bool :=
  p._circuit_breaker_enabled

/-- `CommandProperties.circuit_breaker_error_threshold_percentage`
(command_properties.py:281-294). -/
def CommandProperties.circuit_breaker_error_threshold_percentage
    (p : CommandProperties) : ℤ :=
  p._circuit_breaker_error_threshold_percentage

/-- `CommandProperties.circuit_breaker_force_closed` (command_properties.py:296-307). -/
def CommandProperties.circuit_breaker_force_closed (p : CommandProperties) : Bool :=
  p._circuit_breaker_force_closed

/-- `CommandProperties.circuit_breaker_force_open` (command_properties.py:309-320). -/
def CommandProperties.circuit_breaker_force_open (p : CommandProperties) : Bool :=
  p._circuit_breaker_force_open

/-- `CommandProperties.circuit_breaker_request_volume_threshold`
(command_properties.py:322-333). -/
def CommandProperties.circuit_breaker_request_volume_threshold
    (p : CommandProperties) : ℤ :=
  p._circuit_breaker_request_volume_threshold

/-- `CommandProperties.circuit_breaker_sleep_window_in_milliseconds`
(command_properties.py:335-342). -/
def CommandProperties.circuit_breaker_sleep_window_in_milliseconds
    (p : CommandProperties) : ℤ :=
  p._circuit_breaker_sleep_window_in_milliseconds

/-- `CommandProperties.execution_isolation_semaphore_max_concurrent_requests`
(command_properties.py:344-356). -/
def CommandProperties.execution_isolation_semaphore_max_concurrent_requests
    (p : CommandProperties) : ℤ :=
  p._execution_isolation_semaphore_max_concurrent_requests

/-- `CommandProperties.execution_isolation_strategy` (command_properties.py:358-373). -/
def CommandProperties.execution_isolation_strategy (p : CommandProperties) : ℤ :=
  p._execution_isolation_strategy

/-- `CommandProperties.execution_isolation_thread_interrupt_on_timeout`
(command_properties.py:375-384). -/
def CommandProperties.execution_isolation_thread_interrupt_on_timeout
    (p : CommandProperties) : Bool :=
  p._execution_isolation_thread_interrupt_on_timeout

/-- `CommandProperties.execution_timeout_in_milliseconds`
(command_properties.py:386-398). -/
def CommandProperties.execution_timeout_in_milliseconds (p : CommandProperties) : ℤ :=
  p._execution_timeout_in_milliseconds

/-- `CommandProperties.fallback_isolation_semaphore_max_concurrent_requests`
(command_properties.py:400-408). -/
def CommandProperties.fallback_isolation_semaphore_max_concurrent_requests
    (p : CommandProperties) : ℤ :=
  p._fallback_isolation_semaphore_max_concurrent_requests

/-- `CommandProperties.fallback_enabled` (command_properties.py:410-417). -/
def CommandProperties.fallback_enabled (p : CommandProperties) : Bool :=
  p._fallback_enabled

/-- `CommandProperties.metrics_health_snapshot_interval_in_milliseconds`
(command_properties.py:419-431). -/
def CommandProperties.metrics_health_snapshot_interval_in_milliseconds
    (p : CommandProperties) : ℤ :=
  p._metrics_health_snapshot_interval_in_milliseconds

/-- `CommandProperties.metrics_rolling_percentile_bucket_size`
(command_properties.py:433-441). -/
def CommandProperties.metrics_rolling_percentile_bucket_size
    (p : CommandProperties) : ℤ :=
  p._metrics_rolling_percentile_bucket_size

/-- `CommandProperties.metrics_rolling_percentile_enabled`
(command_properties.py:443-451). -/
def CommandProperties.metrics_rolling_percentile_enabled
    (p : CommandProperties) : Bool :=
  p._metrics_rolling_percentile_enabled

/-- `CommandProperties.metrics_rolling_percentile_window_in_milliseconds`
(command_properties.py:453-461). -/
def CommandProperties.metrics_rolling_percentile_window_in_milliseconds
    (p : CommandProperties) : ℤ :=
  p._metrics_rolling_percentile_window_in_milliseconds

/-- `CommandProperties.metrics_rolling_percentile_window_buckets`
(command_properties.py:463-471). -/
def CommandProperties.metrics_rolling_percentile_window_buckets
    (p : CommandProperties) : ℤ :=
  p._metrics_rolling_percentile_window_buckets

/-- `CommandProperties.metrics_rolling_statistical_window_in_milliseconds`
(command_properties.py:473-481). -/
def CommandProperties.metrics_rolling_statistical_window_in_milliseconds
    (p : CommandProperties) : ℤ :=
  p._metrics_rolling_statistical_window_in_milliseconds

/-- `CommandProperties.metrics_rolling_statistical_window_buckets`
(command_properties.py:483-491). -/
def CommandProperties.metrics_rolling_statistical_window_buckets
    (p : CommandProperties) : ℤ :=
  p._metrics_rolling_statistical_window_buckets

/-- `CommandProperties.request_cache_enabled` (command_properties.py:493-501). -/
def CommandProperties.request_cache_enabled (p : CommandProperties) : Bool :=
  p._request_cache_enabled

/-- `CommandProperties.request_log_enabled` (command_properties.py:503-510). -/
def CommandProperties.request_log_enabled (p : CommandProperties) : Bool :=
  p._request_log_enabled

/-- Modelled from the spec: `ConfigError` (spec §7), the error the spec
assigns to invalid construction parameters.  No such class exists anywhere
in the sources. -/
inductive ConfigError
  | mk (msg : String)
  deriving DecidableEq

/-- `CommandProperties.__init__` viewed as a fallible constructor: the body
(command_properties.py:81-257) consists solely of straight-line assignments,
contains no validation and no raise statement, so every input produces a
normal result. -/
def CommandProperties.buildE (command_key : String) (setter : Setter)
    ( property_prefix : Option String) : Except ConfigError CommandProperties :=
  Except.ok (CommandProperties.build command_key setter property_prefix)

/-! ## Helper lemmas -/

/-- Python `int()` agrees with the floor on non-negative quotients. -/
theorem pyInt_eq_floor_of_nonneg (q : ℚ) (h : 0 ≤ q) : pyInt q = ⌊q⌋ :=
  if_pos h

/-- The setter-override-else-default resolution of `_property` is exactly
`Option.getD`. -/
theorem _property_eq_getD {α : Type} (pre : Option String) (k n : String)
    (d : α) (o : Option α) :
    CommandProperties._property pre k n d o = o.getD d := by
  cases o <;> rfl

/-- `log2fuel` computes the floor of the base-2 logarithm whenever it is
given at least as much fuel as the argument. -/
theorem log2fuel_spec :
    ∀ f n : ℕ, n ≤ f → 1 ≤ n →
      2 ^ log2fuel f n ≤ n ∧ n < 2 ^ (log2fuel f n + 1)
  | 0, n, hf, hn => absurd hn (by omega)
  | f + 1, n, hf, hn => by
    unfold log2fuel
    by_cases h2 : n < 2
    · simp only [h2, if_true]
      constructor
      · simpa using hn
      · simpa using by omega
    · simp only [h2, if_false]
      have hrec := log2fuel_spec f (n / 2) (by omega) (by omega)
      have h1 := hrec.1
      have hlt := hrec.2
      have e1 : 2 ^ (log2fuel f (n / 2) + 1) = 2 * 2 ^ log2fuel f (n / 2) := by ring
      have e2 : 2 ^ (log2fuel f (n / 2) + 1 + 1) =
          2 * 2 ^ (log2fuel f (n / 2) + 1) := by ring
      omega

/-- `nlog2` is the floor of the base-2 logarithm on positive naturals. -/
theorem nlog2_spec (n : ℕ) (hn : 1 ≤ n) :
    2 ^ nlog2 n ≤ n ∧ n < 2 ^ (nlog2 n + 1) :=
  log2fuel_spec n n le_rfl hn

/-- For a positive rational, `qexp` is the floor of the base-2 logarithm:
`2 ^ qexp q ≤ q < 2 ^ (qexp q + 1)`. -/
theorem qexp_spec (q : ℚ) (hq : 0 < q) :
    (2 : ℚ) ^ qexp q ≤ q ∧ q < 2 ^ (qexp q + 1) := by
  have hnum : 0 < q.num := Rat.num_pos.mpr hq
  have ha1 : 1 ≤ q.num.natAbs := by omega
  have hb1 : 1 ≤ q.den := q.den_pos
  obtain ⟨hla, hla2⟩ := nlog2_spec q.num.natAbs ha1
  obtain ⟨hlb, hlb2⟩ := nlog2_spec q.den hb1
  have hq_eq : q = (q.num.natAbs : ℚ) / (q.den : ℚ) := by
    conv_lhs => rw [← Rat.num_div_den q]
    congr 1
    rw [Int.cast_natAbs]
    exact congrArg (fun z : ℤ => (z : ℚ)) (abs_of_nonneg hnum.le).symm
  have hbQ : (0 : ℚ) < (q.den : ℚ) := by exact_mod_cast hb1
  have haQ : (0 : ℚ) < (q.num.natAbs : ℚ) := by exact_mod_cast ha1
  have hA : ((2 : ℚ)) ^ (nlog2 q.num.natAbs) ≤ (q.num.natAbs : ℚ) := by
    exact_mod_cast hla
  have hA2 : (q.num.natAbs : ℚ) < 2 ^ (nlog2 q.num.natAbs + 1) := by
    exact_mod_cast hla2
  have hB : ((2 : ℚ)) ^ (nlog2 q.den) ≤ (q.den : ℚ) := by exact_mod_cast hlb
  have hB2 : (q.den : ℚ) < 2 ^ (nlog2 q.den + 1) := by exact_mod_cast hlb2
  set la := nlog2 q.num.natAbs with hla_def
  set lb := nlog2 q.den with hlb_def
  have hlow : (2 : ℚ) ^ ((la : ℤ) - (lb : ℤ) - 1) < q := by
    have step1 : (2 : ℚ) ^ ((la : ℤ) - (lb : ℤ) - 1) =
        (2 : ℚ) ^ (la : ℕ) / (2 : ℚ) ^ (lb + 1 : ℕ) := by
      rw [← zpow_natCast (2 : ℚ) la, ← zpow_natCast (2 : ℚ) (lb + 1),
        ← zpow_sub₀ (two_ne_zero)]
      congr 1
      push_cast
      ring
    rw [step1, hq_eq]
    calc (2 : ℚ) ^ (la : ℕ) / (2 : ℚ) ^ (lb + 1 : ℕ)
        ≤ (q.num.natAbs : ℚ) / (2 : ℚ) ^ (lb + 1 : ℕ) :=
          (div_le_div_iff_of_pos_right (by positivity)).mpr hA
      _ < (q.num.natAbs : ℚ) / (q.den : ℚ) :=
          div_lt_div_of_pos_left haQ hbQ hB2
  have hhigh : q < (2 : ℚ) ^ ((la : ℤ) - (lb : ℤ) + 1) := by
    have step1 : (2 : ℚ) ^ ((la : ℤ) - (lb : ℤ) + 1) =
        (2 : ℚ) ^ (la + 1 : ℕ) / (2 : ℚ) ^ (lb : ℕ) := by
      rw [← zpow_natCast (2 : ℚ) (la + 1), ← zpow_natCast (2 : ℚ) lb,
        ← zpow_sub₀ (two_ne_zero)]
      congr 1
      push_cast
      ring
    rw [step1, hq_eq]
    calc (q.num.natAbs : ℚ) / (q.den : ℚ)
        ≤ (q.num.natAbs : ℚ) / (2 : ℚ) ^ (lb : ℕ) :=
          div_le_div_of_nonneg_left haQ.le (by positivity) hB
      _ < (2 : ℚ) ^ (la + 1 : ℕ) / (2 : ℚ) ^ (lb : ℕ) :=
          (div_lt_div_iff_of_pos_right (by positivity)).mpr hA2
  unfold qexp
  rw [← hla_def, ← hlb_def]
  by_cases hcase : q < 2 ^ ((la : ℤ) - (lb : ℤ))
  · simp only [hcase, if_true]
    constructor
    · exact le_of_lt hlow
    · have : (la : ℤ) - (lb : ℤ) - 1 + 1 = (la : ℤ) - (lb : ℤ) := by ring
      rw [this]
      exact hcase
  · simp only [hcase, if_false]
    exact ⟨not_lt.mp hcase, hhigh⟩

/-- The round-half-even integer is within one half below the argument. -/
theorem le_rhe (x : ℚ) : x - 1 / 2 ≤ (rhe x : ℚ) := by
  have hf := Int.floor_le x
  have hc := Int.lt_floor_add_one x
  unfold rhe
  split_ifs with h1 h2 h3 <;> push_cast <;> linarith

/-- The round-half-even integer is within one half above the argument. -/
theorem rhe_le (x : ℚ) : (rhe x : ℚ) ≤ x + 1 / 2 := by
  have hf := Int.floor_le x
  have hc := Int.lt_floor_add_one x
  unfold rhe
  split_ifs with h1 h2 h3 <;> push_cast <;> linarith

/-- Mantissa rounding of a positive rational never produces a negative
value. -/
theorem roundPos_nonneg (q : ℚ) (hq : 0 < q) : 0 ≤ roundPos q := by
  unfold roundPos
  have hxpos : 0 < q * 2 ^ ((52 : ℤ) - qexp q) := by positivity
  have h1 := le_rhe (q * 2 ^ ((52 : ℤ) - qexp q))
  have h2 : (-1 : ℤ) < rhe (q * 2 ^ ((52 : ℤ) - qexp q)) := by
    by_contra hcon
    push_neg at hcon
    have : ((rhe (q * 2 ^ ((52 : ℤ) - qexp q)) : ℤ) : ℚ) ≤ -1 := by
      exact_mod_cast hcon
    linarith
  have h3 : (0 : ℤ) ≤ rhe (q * 2 ^ ((52 : ℤ) - qexp q)) := by omega
  have h4 : (0 : ℚ) ≤ (rhe (q * 2 ^ ((52 : ℤ) - qexp q)) : ℚ) := by exact_mod_cast h3
  positivity

/-- A positive rational bounded by `2 ^ 52` has binary exponent at most 52,
so integers up to that bound lie on its mantissa grid. -/
theorem qexp_le_52 (q : ℚ) (hq : 0 < q) (h : q ≤ 2 ^ (52 : ℕ)) : qexp q ≤ 52 := by
  by_contra hcon
  push_neg at hcon
  have h1 : (2 : ℚ) ^ (53 : ℤ) ≤ 2 ^ qexp q :=
    zpow_le_zpow_right₀ (by norm_num) (by omega)
  have h2 := (qexp_spec q hq).1
  have h3 : (2 : ℚ) ^ (53 : ℤ) = 2 ^ (53 : ℕ) := by
    rw [← zpow_natCast (2 : ℚ) 53]
    norm_num
  have h4 : (2 : ℚ) ^ (52 : ℕ) < 2 ^ (53 : ℕ) := by norm_num
  linarith

/-- Mantissa rounding cannot overshoot a natural-number bound that lies on
the grid: rounding to nearest fixes representable values, so `q ≤ n`
implies `roundPos q ≤ n` whenever the exponent keeps the grid at least as
fine as the integers. -/
theorem roundPos_le_nat (q : ℚ) (hq : 0 < q) (n : ℕ) (hqn : q ≤ n)
    (hE : qexp q ≤ 52) : roundPos q ≤ n := by
  unfold roundPos
  set E := qexp q with hEdef
  set x := q * 2 ^ ((52 : ℤ) - E) with hxdef
  set N : ℤ := (n : ℤ) * 2 ^ ((52 - E).toNat) with hNdef
  have hpow : ((2 : ℚ)) ^ ((52 : ℤ) - E) = (2 : ℚ) ^ ((52 - E).toNat) := by
    rw [← zpow_natCast (2 : ℚ) ((52 - E).toNat), Int.toNat_of_nonneg (by omega)]
  have hNcast : (N : ℚ) = (n : ℚ) * 2 ^ ((52 : ℤ) - E) := by
    rw [hNdef, hpow]
    push_cast
    ring
  have hxN : x ≤ (N : ℚ) := by
    rw [hNcast, hxdef]
    have : (0 : ℚ) ≤ 2 ^ ((52 : ℤ) - E) := le_of_lt (zpow_pos (by norm_num) _)
    apply mul_le_mul_of_nonneg_right hqn this
  have h1 : (rhe x : ℚ) ≤ (N : ℚ) + 1 / 2 := le_trans (rhe_le x) (by linarith)
  have h2 : rhe x ≤ N := by
    by_contra hcon
    push_neg at hcon
    have : ((N : ℤ) : ℚ) + 1 ≤ (rhe x : ℚ) := by exact_mod_cast hcon
    linarith
  have h3 : (rhe x : ℚ) ≤ (N : ℚ) := by exact_mod_cast h2
  calc (rhe x : ℚ) * 2 ^ (E - (52 : ℤ))
      ≤ (N : ℚ) * 2 ^ (E - (52 : ℤ)) := by
        apply mul_le_mul_of_nonneg_right h3 (le_of_lt (zpow_pos (by norm_num) _))
    _ = (n : ℚ) := by
        rw [hNcast, mul_assoc, ← zpow_add₀ (two_ne_zero : (2 : ℚ) ≠ 0)]
        have : (52 : ℤ) - E + (E - 52) = 0 := by ring
        rw [this, zpow_zero, mul_one]

/-- binary64 rounding preserves non-negativity. -/
theorem roundDouble_nonneg (q : ℚ) (h : 0 ≤ q) : 0 ≤ roundDouble q := by
  unfold roundDouble
  split_ifs with h1 h2
  · exact roundPos_nonneg q h1
  · linarith
  · exact le_refl 0

/-- binary64 rounding preserves an integer upper bound up to `2 ^ 52`. -/
theorem roundDouble_le_nat (q : ℚ) (n : ℕ) (h0 : 0 ≤ q) (h : q ≤ n)
    (hn : (n : ℚ) ≤ 2 ^ (52 : ℕ)) : roundDouble q ≤ n := by
  unfold roundDouble
  split_ifs with h1 h2
  · exact roundPos_le_nat q h1 n h (qexp_le_52 q h1 (le_trans h hn))
  · linarith
  · positivity

/-- The float-evaluated percentage `int(e / t * 100)` lies in `[0, 100]` for
`0 ≤ e ≤ t` and `0 < t`. -/
theorem pyPct_bounds (e t : ℤ) (he : 0 ≤ e) (het : e ≤ t) (ht : 0 < t) :
    0 ≤ pyInt (roundDouble (roundDouble ((e : ℚ) / (t : ℚ)) * 100)) ∧
    pyInt (roundDouble (roundDouble ((e : ℚ) / (t : ℚ)) * 100)) ≤ 100 := by
  have htQ : (0 : ℚ) < (t : ℚ) := by exact_mod_cast ht
  have heQ : (0 : ℚ) ≤ (e : ℚ) := by exact_mod_cast he
  have hetQ : (e : ℚ) ≤ (t : ℚ) := by exact_mod_cast het
  have hq1_0 : (0 : ℚ) ≤ (e : ℚ) / (t : ℚ) := div_nonneg heQ htQ.le
  have hq1_1 : (e : ℚ) / (t : ℚ) ≤ 1 := (div_le_one htQ).mpr hetQ
  have hr1_0 : (0 : ℚ) ≤ roundDouble ((e : ℚ) / (t : ℚ)) :=
    roundDouble_nonneg _ hq1_0
  have hr1_1 : roundDouble ((e : ℚ) / (t : ℚ)) ≤ ((1 : ℕ) : ℚ) :=
    roundDouble_le_nat _ 1 hq1_0 (by simpa using hq1_1) (by norm_num)
  have hq2_0 : (0 : ℚ) ≤ roundDouble ((e : ℚ) / (t : ℚ)) * 100 :=
    mul_nonneg hr1_0 (by norm_num)
  have hq2_100 : roundDouble ((e : ℚ) / (t : ℚ)) * 100 ≤ ((100 : ℕ) : ℚ) := by
    have h1 : roundDouble ((e : ℚ) / (t : ℚ)) ≤ 1 := by simpa using hr1_1
    calc roundDouble ((e : ℚ) / (t : ℚ)) * 100
        ≤ 1 * 100 := mul_le_mul_of_nonneg_right h1 (by norm_num)
      _ = ((100 : ℕ) : ℚ) := by norm_num
  have hr2_0 : (0 : ℚ) ≤ roundDouble (roundDouble ((e : ℚ) / (t : ℚ)) * 100) :=
    roundDouble_nonneg _ hq2_0
  have hr2_100 : roundDouble (roundDouble ((e : ℚ) / (t : ℚ)) * 100) ≤
      ((100 : ℕ) : ℚ) :=
    roundDouble_le_nat _ 100 hq2_0 hq2_100 (by norm_num)
  rw [pyInt_eq_floor_of_nonneg _ hr2_0]
  constructor
  · exact Int.le_floor.mpr (by exact_mod_cast hr2_0)
  · have hfl := Int.floor_le (roundDouble (roundDouble ((e : ℚ) / (t : ℚ)) * 100))
    have hq : (⌊roundDouble (roundDouble ((e : ℚ) / (t : ℚ)) * 100)⌋ : ℚ) ≤
        ((100 : ℕ) : ℚ) := le_trans hfl hr2_100
    exact_mod_cast hq

/-! ## Theorems for the claims -/

/-- C8: for every pair of duration values `d₁` and `d₂`, calling any of
`mark_success`, `mark_failure`, `mark_timeout` or `mark_bad_request` with
`d₁` produces exactly the same counter state and the same notification
effects as calling it with `d₂`: the duration argument has no influence on
any observable behaviour of the metrics. -/
theorem mark_duration_has_no_influence
    (mark_event : EventType → String → Except String Unit)
    (key : String) (d₁ d₂ : ℤ) (c : RollingNumberEvent → ℤ) :
    mark_success mark_event key d₁ c = mark_success mark_event key d₂ c ∧
    mark_failure mark_event key d₁ c = mark_failure mark_event key d₂ c ∧
    mark_timeout mark_event key d₁ c = mark_timeout mark_event key d₂ c ∧
    mark_bad_request mark_event key d₁ c = mark_bad_request mark_event key d₂ c :=
  ⟨rfl, rfl, rfl, rfl⟩

/-- C3 fails on the code: the event notifier is invoked with no exception
handling, so with a notifier that raises, `mark_success` propagates the
exception to the caller instead of containing it (the result is an error,
not a normal result carrying an incremented counter). -/
theorem mark_success_propagates_notifier_exception :
    mark_success (fun _ _ => Except.error "boom") "k" 0 (fun _ => 0) =
      Except.error "boom" := rfl

/-- C3 (amended): each of the four mark operations invokes
`event_notifier.mark_event` before the counter increment with no exception
handling, so an exception raised by the hook propagates to the caller and
the counter increment is not applied; when the hook returns normally, the
increment is applied and the notification is fired. -/
theorem mark_notifier_exception_behaviour
    (mark_event : EventType → String → Except String Unit)
    (key : String) (d : ℤ) (c : RollingNumberEvent → ℤ) (e : String) :
    (mark_event EventType.SUCCESS key = Except.error e →
       mark_success mark_event key d c = Except.error e) ∧
    (mark_event EventType.SUCCESS key = Except.ok () →
       mark_success mark_event key d c =
         Except.ok (increment c RollingNumberEvent.SUCCESS,
           [(EventType.SUCCESS, key)])) ∧
    (mark_event EventType.FAILURE key = Except.error e →
       mark_failure mark_event key d c = Except.error e) ∧
    (mark_event EventType.FAILURE key = Except.ok () →
       mark_failure mark_event key d c =
         Except.ok (increment c RollingNumberEvent.FAILURE,
           [(EventType.FAILURE, key)])) ∧
    (mark_event EventType.TIMEOUT key = Except.error e →
       mark_timeout mark_event key d c = Except.error e) ∧
    (mark_event EventType.TIMEOUT key = Except.ok () →
       mark_timeout mark_event key d c =
         Except.ok (increment c RollingNumberEvent.TIMEOUT,
           [(EventType.TIMEOUT, key)])) ∧
    (mark_event EventType.BAD_REQUEST key = Except.error e →
       mark_bad_request mark_event key d c = Except.error e) ∧
    (mark_event EventType.BAD_REQUEST key = Except.ok () →
       mark_bad_request mark_event key d c =
         Except.ok (increment c RollingNumberEvent.BAD_REQUEST,
           [(EventType.BAD_REQUEST, key)])) := by
  refine ⟨?_, ?_, ?_, ?_, ?_, ?_, ?_, ?_⟩ <;> intro h <;>
    simp [mark_success, mark_failure, mark_timeout, mark_bad_request, h]

/-- Witness for the amended C3 at concrete inputs: a raising notifier makes
`mark_failure` propagate the error, and a well-behaved notifier lets
`mark_timeout` apply its increment. -/
theorem mark_notifier_exception_behaviour_witness :
    mark_failure (fun _ _ => Except.error "boom") "k" 0 (fun _ => 0) =
      Except.error "boom" ∧
    mark_timeout (fun _ _ => Except.ok ()) "k" 0 (fun _ => 0) =
      Except.ok (increment (fun _ => 0) RollingNumberEvent.TIMEOUT,
        [(EventType.TIMEOUT, "k")]) :=
  ⟨(mark_notifier_exception_behaviour (fun _ _ => Except.error "boom") "k" 0
      (fun _ => 0) "boom").2.2.1 rfl,
   (mark_notifier_exception_behaviour (fun _ _ => Except.ok ()) "k" 0
      (fun _ => 0) "boom").2.2.2.2.2.1 rfl⟩

/-- C4: when the notifier returns normally, each of the four mark operations
increments exactly its own rolling counter by one, leaves every other
counter unchanged, and fires the notification hook exactly once, with the
corresponding event kind and the command key. -/
theorem mark_increments_exactly_corresponding_counter
    (mark_event : EventType → String → Except String Unit)
    (key : String) (d : ℤ) (c : RollingNumberEvent → ℤ)
    (e₁ e₂ e₃ e₄ : RollingNumberEvent)
    (h₁ : mark_event EventType.SUCCESS key = Except.ok ())
    (h₂ : mark_event EventType.FAILURE key = Except.ok ())
    (h₃ : mark_event EventType.TIMEOUT key = Except.ok ())
    (h₄ : mark_event EventType.BAD_REQUEST key = Except.ok ())
    (hne₁ : e₁ ≠ RollingNumberEvent.SUCCESS)
    (hne₂ : e₂ ≠ RollingNumberEvent.FAILURE)
    (hne₃ : e₃ ≠ RollingNumberEvent.TIMEOUT)
    (hne₄ : e₄ ≠ RollingNumberEvent.BAD_REQUEST) :
    (mark_success mark_event key d c =
       Except.ok (increment c RollingNumberEvent.SUCCESS, [(EventType.SUCCESS, key)]) ∧
     increment c RollingNumberEvent.SUCCESS RollingNumberEvent.SUCCESS =
       c RollingNumberEvent.SUCCESS + 1 ∧
     increment c RollingNumberEvent.SUCCESS e₁ = c e₁) ∧
    (mark_failure mark_event key d c =
       Except.ok (increment c RollingNumberEvent.FAILURE, [(EventType.FAILURE, key)]) ∧
     increment c RollingNumberEvent.FAILURE RollingNumberEvent.FAILURE =
       c RollingNumberEvent.FAILURE + 1 ∧
     increment c RollingNumberEvent.FAILURE e₂ = c e₂) ∧
    (mark_timeout mark_event key d c =
       Except.ok (increment c RollingNumberEvent.TIMEOUT, [(EventType.TIMEOUT, key)]) ∧
     increment c RollingNumberEvent.TIMEOUT RollingNumberEvent.TIMEOUT =
       c RollingNumberEvent.TIMEOUT + 1 ∧
     increment c RollingNumberEvent.TIMEOUT e₃ = c e₃) ∧
    (mark_bad_request mark_event key d c =
       Except.ok (increment c RollingNumberEvent.BAD_REQUEST, [(EventType.BAD_REQUEST, key)]) ∧
     increment c RollingNumberEvent.BAD_REQUEST RollingNumberEvent.BAD_REQUEST =
       c RollingNumberEvent.BAD_REQUEST + 1 ∧
     increment c RollingNumberEvent.BAD_REQUEST e₄ = c e₄) := by
  refine ⟨⟨?_, ?_, ?_⟩, ⟨?_, ?_, ?_⟩, ⟨?_, ?_, ?_⟩, ⟨?_, ?_, ?_⟩⟩ <;>
    simp [mark_success, mark_failure, mark_timeout, mark_bad_request,
      increment, h₁, h₂, h₃, h₄, hne₁, hne₂, hne₃, hne₄]

/-- Witness for C4 at concrete inputs: an always-succeeding notifier, key
`"k"`, the zero counter, and a distinct other event kind for each
operation. -/
theorem mark_increments_exactly_corresponding_counter_witness :
    (mark_success (fun _ _ => Except.ok ()) "k" 7 (fun _ => 0) =
       Except.ok (increment (fun _ => 0) RollingNumberEvent.SUCCESS,
         [(EventType.SUCCESS, "k")]) ∧
     increment (fun _ => 0) RollingNumberEvent.SUCCESS RollingNumberEvent.SUCCESS =
       (fun (_ : RollingNumberEvent) => (0 : ℤ)) RollingNumberEvent.SUCCESS + 1 ∧
     increment (fun _ => 0) RollingNumberEvent.SUCCESS RollingNumberEvent.FAILURE =
       (fun (_ : RollingNumberEvent) => (0 : ℤ)) RollingNumberEvent.FAILURE) ∧
    (mark_failure (fun _ _ => Except.ok ()) "k" 7 (fun _ => 0) =
       Except.ok (increment (fun _ => 0) RollingNumberEvent.FAILURE,
         [(EventType.FAILURE, "k")]) ∧
     increment (fun _ => 0) RollingNumberEvent.FAILURE RollingNumberEvent.FAILURE =
       (fun (_ : RollingNumberEvent) => (0 : ℤ)) RollingNumberEvent.FAILURE + 1 ∧
     increment (fun _ => 0) RollingNumberEvent.FAILURE RollingNumberEvent.SUCCESS =
       (fun (_ : RollingNumberEvent) => (0 : ℤ)) RollingNumberEvent.SUCCESS) ∧
    (mark_timeout (fun _ _ => Except.ok ()) "k" 7 (fun _ => 0) =
       Except.ok (increment (fun _ => 0) RollingNumberEvent.TIMEOUT,
         [(EventType.TIMEOUT, "k")]) ∧
     increment (fun _ => 0) RollingNumberEvent.TIMEOUT RollingNumberEvent.TIMEOUT =
       (fun (_ : RollingNumberEvent) => (0 : ℤ)) RollingNumberEvent.TIMEOUT + 1 ∧
     increment (fun _ => 0) RollingNumberEvent.TIMEOUT RollingNumberEvent.SUCCESS =
       (fun (_ : RollingNumberEvent) => (0 : ℤ)) RollingNumberEvent.SUCCESS) ∧
    (mark_bad_request (fun _ _ => Except.ok ()) "k" 7 (fun _ => 0) =
       Except.ok (increment (fun _ => 0) RollingNumberEvent.BAD_REQUEST,
         [(EventType.BAD_REQUEST, "k")]) ∧
     increment (fun _ => 0) RollingNumberEvent.BAD_REQUEST RollingNumberEvent.BAD_REQUEST =
       (fun (_ : RollingNumberEvent) => (0 : ℤ)) RollingNumberEvent.BAD_REQUEST + 1 ∧
     increment (fun _ => 0) RollingNumberEvent.BAD_REQUEST RollingNumberEvent.SUCCESS =
       (fun (_ : RollingNumberEvent) => (0 : ℤ)) RollingNumberEvent.SUCCESS) :=
  mark_increments_exactly_corresponding_counter (fun _ _ => Except.ok ()) "k" 7
    (fun _ => 0) RollingNumberEvent.FAILURE RollingNumberEvent.SUCCESS
    RollingNumberEvent.SUCCESS RollingNumberEvent.SUCCESS
    rfl rfl rfl rfl (by decide) (by decide) (by decide) (by decide)

/-- C5 fails on the code: constructing command properties with an
error-threshold override of 150 — outside the 0–100 range — succeeds
normally; no ConfigError is raised (no validation exists in
`CommandProperties.__init__`), and the out-of-range value is resolved
verbatim. -/
theorem command_properties_out_of_range_no_error :
    CommandProperties.buildE "k"
        { Setter.new with circuit_breaker_error_threshold_percentage := some 150 }
        none =
      Except.ok (CommandProperties.build "k"
        { Setter.new with circuit_breaker_error_threshold_percentage := some 150 }
        none) ∧
    (CommandProperties.build "k"
        { Setter.new with circuit_breaker_error_threshold_percentage := some 150 }
        none).circuit_breaker_error_threshold_percentage = 150 ∧
    ¬ (150 : ℤ) ≤ 100 :=
  ⟨rfl, rfl, by decide⟩

/-- C5 (amended): command-properties construction performs no validation and
never raises — every input, including out-of-range threshold percentages and
arbitrary (e.g. non-positive) window durations and bucket counts, yields a
normal result in which the override is resolved verbatim; nor is any
configuration error raised at call time, the accessors being total. -/
theorem command_properties_construction_never_raises
    (command_key : String) (s : Setter) (pre : Option String) (v : ℤ) :
    CommandProperties.buildE command_key s pre =
      Except.ok (CommandProperties.build command_key s pre) ∧
    (CommandProperties.build command_key
        { s with circuit_breaker_error_threshold_percentage := some v }
        pre).circuit_breaker_error_threshold_percentage = v ∧
    (CommandProperties.build command_key
        { s with metrics_rolling_statistical_window_in_milliseconds := some v }
        pre).metrics_rolling_statistical_window_in_milliseconds = v ∧
    (CommandProperties.build command_key
        { s with metrics_rolling_statistical_window_buckets := some v }
        pre).metrics_rolling_statistical_window_buckets = v :=
  ⟨rfl, rfl, rfl, rfl⟩

/-- C6: for every configuration property and every setter, the value
resolved at construction is the setter's override when present and the
documented default otherwise (`Option.getD`), and properties built from a
fresh `Setter` resolve every property to its default. -/
theorem command_properties_resolution
    (command_key : String) (s : Setter) (pre : Option String) :
    ((CommandProperties.build command_key s pre).circuit_breaker_enabled =
       s.circuit_breaker_enabled.getD default_circuit_breaker_enabled ∧
     (CommandProperties.build command_key s pre).circuit_breaker_request_volume_threshold =
       s.circuit_breaker_request_volume_threshold.getD
         default_circuit_breaker_request_volume_threshold ∧
     (CommandProperties.build command_key s pre).circuit_breaker_sleep_window_in_milliseconds =
       s.circuit_breaker_sleep_window_in_milliseconds.getD
         default_circuit_breaker_sleep_window_in_milliseconds ∧
     (CommandProperties.build command_key s pre).circuit_breaker_error_threshold_percentage =
       s.circuit_breaker_error_threshold_percentage.getD
         default_circuit_breaker_error_threshold_percentage ∧
     (CommandProperties.build command_key s pre).circuit_breaker_force_open =
       s.circuit_breaker_force_open.getD default_circuit_breaker_force_open ∧
     (CommandProperties.build command_key s pre).circuit_breaker_force_closed =
       s.circuit_breaker_force_closed.getD default_circuit_breaker_force_closed ∧
     (CommandProperties.build command_key s pre).execution_isolation_strategy =
       s.execution_isolation_strategy.getD default_execution_isolation_strategy ∧
     (CommandProperties.build command_key s pre).execution_timeout_in_milliseconds =
       s.execution_timeout_in_milliseconds.getD
         default_execution_timeout_in_milliseconds ∧
     (CommandProperties.build command_key s pre).execution_isolation_semaphore_max_concurrent_requests =
       s.execution_isolation_semaphore_max_concurrent_requests.getD
         default_execution_isolation_semaphore_max_concurrent_requests ∧
     (CommandProperties.build command_key s pre).fallback_isolation_semaphore_max_concurrent_requests =
       s.fallback_isolation_semaphore_max_concurrent_requests.getD
         default_fallback_isolation_semaphore_max_concurrent_requests ∧
     (CommandProperties.build command_key s pre).fallback_enabled =
       s.fallback_enabled.getD default_fallback_enabled ∧
     (CommandProperties.build command_key s pre).execution_isolation_thread_interrupt_on_timeout =
       s.execution_isolation_thread_interrupt_on_timeout.getD
         default_execution_isolation_thread_interrupt_on_timeout ∧
     (CommandProperties.build command_key s pre).metrics_rolling_statistical_window_in_milliseconds =
       s.metrics_rolling_statistical_window_in_milliseconds.getD
         default_metrics_rolling_statistical_window ∧
     (CommandProperties.build command_key s pre).metrics_rolling_statistical_window_buckets =
       s.metrics_rolling_statistical_window_buckets.getD
         default_metrics_rolling_statistical_window_buckets ∧
     (CommandProperties.build command_key s pre).metrics_rolling_percentile_enabled =
       s.metrics_rolling_percentile_enabled.getD
         default_metrics_rolling_percentile_enabled ∧
     (CommandProperties.build command_key s pre).metrics_rolling_percentile_window_in_milliseconds =
       s.metrics_rolling_percentile_window_in_milliseconds.getD
         default_metrics_rolling_percentile_window ∧
     (CommandProperties.build command_key s pre).metrics_rolling_percentile_window_buckets =
       s.metrics_rolling_percentile_window_buckets.getD
         default_metrics_rolling_percentile_window_buckets ∧
     (CommandProperties.build command_key s pre).metrics_rolling_percentile_bucket_size =
       s.metrics_rolling_percentile_bucket_size.getD
         default_metrics_rolling_percentile_bucket_size ∧
     (CommandProperties.build command_key s pre).metrics_health_snapshot_interval_in_milliseconds =
       s.metrics_health_snapshot_interval_in_milliseconds.getD
         default_metrics_health_snapshot_interval_in_milliseconds ∧
     (CommandProperties.build command_key s pre).request_log_enabled =
       s.request_log_enabled.getD default_request_log_enabled ∧
     (CommandProperties.build command_key s pre).request_cache_enabled =
       s.request_cache_enabled.getD default_request_cache_enabled) ∧
    ((CommandProperties.build command_key Setter.new pre).circuit_breaker_enabled =
       default_circuit_breaker_enabled ∧
     (CommandProperties.build command_key Setter.new pre).circuit_breaker_request_volume_threshold =
       default_circuit_breaker_request_volume_threshold ∧
     (CommandProperties.build command_key Setter.new pre).circuit_breaker_sleep_window_in_milliseconds =
       default_circuit_breaker_sleep_window_in_milliseconds ∧
     (CommandProperties.build command_key Setter.new pre).circuit_breaker_error_threshold_percentage =
       default_circuit_breaker_error_threshold_percentage ∧
     (CommandProperties.build command_key Setter.new pre).circuit_breaker_force_open =
       default_circuit_breaker_force_open ∧
     (CommandProperties.build command_key Setter.new pre).circuit_breaker_force_closed =
       default_circuit_breaker_force_closed ∧
     (CommandProperties.build command_key Setter.new pre).execution_isolation_strategy =
       default_execution_isolation_strategy ∧
     (CommandProperties.build command_key Setter.new pre).execution_timeout_in_milliseconds =
       default_execution_timeout_in_milliseconds ∧
     (CommandProperties.build command_key Setter.new pre).execution_isolation_semaphore_max_concurrent_requests =
       default_execution_isolation_semaphore_max_concurrent_requests ∧
     (CommandProperties.build command_key Setter.new pre).fallback_isolation_semaphore_max_concurrent_requests =
       default_fallback_isolation_semaphore_max_concurrent_requests ∧
     (CommandProperties.build command_key Setter.new pre).fallback_enabled =
       default_fallback_enabled ∧
     (CommandProperties.build command_key Setter.new pre).execution_isolation_thread_interrupt_on_timeout =
       default_execution_isolation_thread_interrupt_on_timeout ∧
     (CommandProperties.build command_key Setter.new pre).metrics_rolling_statistical_window_in_milliseconds =
       default_metrics_rolling_statistical_window ∧
     (CommandProperties.build command_key Setter.new pre).metrics_rolling_statistical_window_buckets =
       default_metrics_rolling_statistical_window_buckets ∧
     (CommandProperties.build command_key Setter.new pre).metrics_rolling_percentile_enabled =
       default_metrics_rolling_percentile_enabled ∧
     (CommandProperties.build command_key Setter.new pre).metrics_rolling_percentile_window_in_milliseconds =
       default_metrics_rolling_percentile_window ∧
     (CommandProperties.build command_key Setter.new pre).metrics_rolling_percentile_window_buckets =
       default_metrics_rolling_percentile_window_buckets ∧
     (CommandProperties.build command_key Setter.new pre).metrics_rolling_percentile_bucket_size =
       default_metrics_rolling_percentile_bucket_size ∧
     (CommandProperties.build command_key Setter.new pre).metrics_health_snapshot_interval_in_milliseconds =
       default_metrics_health_snapshot_interval_in_milliseconds ∧
     (CommandProperties.build command_key Setter.new pre).request_log_enabled =
       default_request_log_enabled ∧
     (CommandProperties.build command_key Setter.new pre).request_cache_enabled =
       default_request_cache_enabled) :=
  ⟨⟨_property_eq_getD pre command_key "circuit_breaker.enabled" _ _,
    _property_eq_getD pre command_key "circuit_breaker.request_volume_threshold" _ _,
    _property_eq_getD pre command_key "circuit_breaker.sleep_window_in_milliseconds" _ _,
    _property_eq_getD pre command_key "circuit_breaker.error_threshold_percentage" _ _,
    _property_eq_getD pre command_key "circuit_breaker.force_open" _ _,
    _property_eq_getD pre command_key "circuit_breaker.force_closed" _ _,
    _property_eq_getD pre command_key "execution.isolation.strategy" _ _,
    _property_eq_getD pre command_key "execution.isolation.thread.timeout_in_milliseconds" _ _,
    _property_eq_getD pre command_key "execution.isolation.semaphore.max_concurrent_requests" _ _,
    _property_eq_getD pre command_key "fallback.isolation.semaphore.max_concurrent_requests" _ _,
    _property_eq_getD pre command_key "fallback.enabled" _ _,
    _property_eq_getD pre command_key "execution.isolation.thread.interrupt_on_timeout" _ _,
    _property_eq_getD pre command_key "metrics.rolling_stats.time_in_milliseconds" _ _,
    _property_eq_getD pre command_key "metrics.rolling_stats.num_buckets" _ _,
    _property_eq_getD pre command_key "metrics.rolling_percentile.enabled" _ _,
    _property_eq_getD pre command_key "metrics.rolling_percentile.time_in_milliseconds" _ _,
    _property_eq_getD pre command_key "metrics.rolling_percentile.num_buckets" _ _,
    _property_eq_getD pre command_key "metrics.rolling_percentile.bucket_size" _ _,
    _property_eq_getD pre command_key "metrics.health_snapshot.interval_in_milliseconds" _ _,
    _property_eq_getD pre command_key "request_log.enabled" _ _,
    _property_eq_getD pre command_key "request_cache.enabled" _ _⟩,
   ⟨rfl, rfl, rfl, rfl, rfl, rfl, rfl, rfl, rfl, rfl, rfl, rfl, rfl, rfl,
    rfl, rfl, rfl, rfl, rfl, rfl, rfl⟩⟩

/-- The recomputed snapshot satisfies the health-count bounds whenever the
rolling sums are non-negative. -/
theorem fresh_health_counts_bounds (c : RollingNumberEvent → ℤ)
    (hnn : ∀ ev, 0 ≤ c ev) :
    0 ≤ (fresh_health_counts c).error_count ∧
    (fresh_health_counts c).error_count ≤ (fresh_health_counts c).total_requests ∧
    0 ≤ (fresh_health_counts c).error_percentage ∧
    (fresh_health_counts c).error_percentage ≤ 100 := by
  have hS := hnn RollingNumberEvent.SUCCESS
  have hF := hnn RollingNumberEvent.FAILURE
  have hT := hnn RollingNumberEvent.TIMEOUT
  have hTp := hnn RollingNumberEvent.THREAD_POOL_REJECTED
  have hSr := hnn RollingNumberEvent.SEMAPHORE_REJECTED
  have hSc := hnn RollingNumberEvent.SHORT_CIRCUITED
  simp only [fresh_health_counts, rolling_sum, HealthCounts.error_count,
    HealthCounts.total_requests, HealthCounts.error_percentage]
  refine ⟨by omega, by omega, ?_⟩
  by_cases hpos :
      0 < c RollingNumberEvent.FAILURE + c RollingNumberEvent.SUCCESS +
        c RollingNumberEvent.TIMEOUT + c RollingNumberEvent.THREAD_POOL_REJECTED +
        c RollingNumberEvent.SHORT_CIRCUITED + c RollingNumberEvent.SEMAPHORE_REJECTED
  · rw [if_pos hpos]
    exact pyPct_bounds _ _ (by omega) (by omega) hpos
  · rw [if_neg hpos]
    norm_num

/-- C10: every snapshot newly published by a `health_counts` call (one that
was not already the stored snapshot beforehand) satisfies, when the rolling
sums are non-negative, `0 ≤ error_count ≤ total_requests` and
`0 ≤ error_percentage ≤ 100`. -/
theorem health_counts_published_snapshot_bounds
    (interval now : ℤ) (st : MetricsState) (hc : HealthCounts)
    (hnn : ∀ ev, 0 ≤ st.counter ev)
    (hpub : (health_counts interval now st).2.health_counts_snapshot = some hc)
    (hnew : st.health_counts_snapshot ≠ some hc) :
    0 ≤ hc.error_count ∧ hc.error_count ≤ hc.total_requests ∧
    0 ≤ hc.error_percentage ∧ hc.error_percentage ≤ 100 := by
  by_cases hb : (decide (interval ≤ now - st.last_health_counts_snapshot) ||
      st.health_counts_snapshot.isNone) = true
  · have hres : (health_counts interval now st).2.health_counts_snapshot =
        some (fresh_health_counts st.counter) := by
      simp [health_counts, hb, compare_and_set]
    rw [hres] at hpub
    obtain rfl := Option.some.inj hpub
    exact fresh_health_counts_bounds st.counter hnn
  · have hres : (health_counts interval now st).2 = st := by
      rw [Bool.not_eq_true] at hb
      simp [health_counts, hb]
    rw [hres] at hpub
    exact absurd hpub hnew

/-- Witness for C10 at a concrete input: a fresh metrics state with the zero
counter and no prior snapshot publishes `⟨0, 0, 0⟩`, which satisfies the
bounds. -/
theorem health_counts_published_snapshot_bounds_witness :
    0 ≤ (⟨0, 0, 0⟩ : HealthCounts).error_count ∧
    (⟨0, 0, 0⟩ : HealthCounts).error_count ≤ (⟨0, 0, 0⟩ : HealthCounts).total_requests ∧
    0 ≤ (⟨0, 0, 0⟩ : HealthCounts).error_percentage ∧
    (⟨0, 0, 0⟩ : HealthCounts).error_percentage ≤ 100 :=
  health_counts_published_snapshot_bounds 0 0 ⟨fun _ => 0, none, 0⟩ ⟨0, 0, 0⟩
    (fun ev => le_refl 0) (by decide) (by decide)

set_option maxRecDepth 4000 in
unseal Rat.add Rat.sub Rat.mul Rat.inv in
/-- C1 fails on the code: with rolling sums SUCCESS = 71 and FAILURE = 29
(total = 100, error = 29), the refresh publishes `error_percentage = 28`,
because `29 / 100 * 100` evaluated in IEEE-754 doubles falls just below 29
before `int()` truncates — while the exact floor the claim demands is
`⌊29 / 100 * 100⌋ = 29`. -/
theorem health_counts_error_percentage_not_exact_floor :
    (health_counts 0 0
        ⟨fun ev => match ev with
          | RollingNumberEvent.SUCCESS => 71
          | RollingNumberEvent.FAILURE => 29
          | _ => 0, none, 0⟩).1 =
      some ⟨100, 29, 28⟩ ∧
    ⌊(29 : ℚ) / 100 * 100⌋ = 29 ∧ (28 : ℤ) ≠ 29 :=
  ⟨by decide, by decide, by decide⟩

/-- C1 (amended): when a `health_counts` refresh is performed, the published
`HealthCounts` satisfies: `total_requests` is the sum of the six rolling
sums for SUCCESS, FAILURE, TIMEOUT, THREAD_POOL_REJECTED,
SEMAPHORE_REJECTED and SHORT_CIRCUITED; `error_count` is `total_requests`
minus the SUCCESS rolling sum; and `error_percentage` is
`int(error_count / total_count * 100)` evaluated in IEEE-754 doubles
(truncation toward zero of the twice-rounded quotient, which can fall one
below the exact floor at boundary values such as 29/100) when
`total_requests > 0`, and `0` when `total_requests = 0`. -/
theorem health_counts_refresh_formula
    (interval now : ℤ) (st : MetricsState) (hc : HealthCounts)
    (hcond : interval ≤ now - st.last_health_counts_snapshot ∨
      st.health_counts_snapshot = none)
    (hpub : (health_counts interval now st).1 = some hc) :
    hc.total_requests =
      rolling_sum st.counter RollingNumberEvent.SUCCESS +
      rolling_sum st.counter RollingNumberEvent.FAILURE +
      rolling_sum st.counter RollingNumberEvent.TIMEOUT +
      rolling_sum st.counter RollingNumberEvent.THREAD_POOL_REJECTED +
      rolling_sum st.counter RollingNumberEvent.SEMAPHORE_REJECTED +
      rolling_sum st.counter RollingNumberEvent.SHORT_CIRCUITED ∧
    hc.error_count =
      hc.total_requests - rolling_sum st.counter RollingNumberEvent.SUCCESS ∧
    (0 < hc.total_requests →
      hc.error_percentage =
        pyInt (roundDouble (roundDouble
          ((hc.error_count : ℚ) / (hc.total_requests : ℚ)) * 100))) ∧
    (hc.total_requests = 0 → hc.error_percentage = 0) := by
  have hb : (decide (interval ≤ now - st.last_health_counts_snapshot) ||
      st.health_counts_snapshot.isNone) = true := by
    rcases hcond with h | h <;> simp [h]
  have hres : (health_counts interval now st).1 =
      some (fresh_health_counts st.counter) := by
    simp [health_counts, hb, compare_and_set]
  rw [hres] at hpub
  obtain rfl := Option.some.inj hpub
  refine ⟨?_, ?_, ?_, ?_⟩
  · simp only [fresh_health_counts, rolling_sum, HealthCounts.total_requests]
    ring
  · simp only [fresh_health_counts, rolling_sum, HealthCounts.total_requests,
      HealthCounts.error_count]
    ring
  · intro hpos
    simp only [fresh_health_counts, rolling_sum, HealthCounts.total_requests,
      HealthCounts.error_count, HealthCounts.error_percentage] at hpos ⊢
    rw [if_pos hpos]
  · intro h0
    simp only [fresh_health_counts, rolling_sum, HealthCounts.total_requests,
      HealthCounts.error_percentage] at h0 ⊢
    rw [if_neg (by omega)]

/-- Witness for the amended C1 at a concrete input: a state with every
rolling sum equal to 1 and no prior snapshot refreshes and publishes the
stated totals and float-evaluated percentage. -/
theorem health_counts_refresh_formula_witness :
    (fresh_health_counts fun _ => 1).total_requests =
      rolling_sum (fun _ => 1) RollingNumberEvent.SUCCESS +
      rolling_sum (fun _ => 1) RollingNumberEvent.FAILURE +
      rolling_sum (fun _ => 1) RollingNumberEvent.TIMEOUT +
      rolling_sum (fun _ => 1) RollingNumberEvent.THREAD_POOL_REJECTED +
      rolling_sum (fun _ => 1) RollingNumberEvent.SEMAPHORE_REJECTED +
      rolling_sum (fun _ => 1) RollingNumberEvent.SHORT_CIRCUITED ∧
    (fresh_health_counts fun _ => 1).error_count =
      (fresh_health_counts fun _ => 1).total_requests -
      rolling_sum (fun _ => 1) RollingNumberEvent.SUCCESS ∧
    (0 < (fresh_health_counts fun _ => 1).total_requests →
      (fresh_health_counts fun _ => 1).error_percentage =
        pyInt (roundDouble (roundDouble
          (((fresh_health_counts fun _ => 1).error_count : ℚ) /
            ((fresh_health_counts fun _ => 1).total_requests : ℚ)) * 100))) ∧
    ((fresh_health_counts fun _ => 1).total_requests = 0 →
      (fresh_health_counts fun _ => 1).error_percentage = 0) :=
  health_counts_refresh_formula 0 0 ⟨fun _ => 1, none, 0⟩
    (fresh_health_counts fun _ => 1) (Or.inl (by decide)) rfl

/-- C2: a `health_counts` call made less than the snapshot interval after
the marker, while a snapshot exists, returns the previously cached snapshot
and leaves the state unchanged — no recomputation — even when the
underlying counters changed in between (`c₂` is arbitrary); a call made
once the interval has elapsed, or made when no snapshot exists yet,
returns a freshly recomputed snapshot of the current counters. -/
theorem health_counts_throttled_caching
    (interval t₁ t₂ t₃ : ℤ) (st st₂ : MetricsState) (hc : HealthCounts)
    (c₂ : RollingNumberEvent → ℤ)
    (hsnap : st.health_counts_snapshot = some hc)
    (hlt : t₁ - st.last_health_counts_snapshot < interval)
    (hfresh : interval ≤ t₂ - st.last_health_counts_snapshot)
    (hnone : st₂.health_counts_snapshot = none) :
    health_counts interval t₁ { st with counter := c₂ } =
      (some hc, { st with counter := c₂ }) ∧
    (health_counts interval t₂ st).1 = some (fresh_health_counts st.counter) ∧
    (health_counts interval t₃ st₂).1 = some (fresh_health_counts st₂.counter) := by
  refine ⟨?_, ?_, ?_⟩
  · have hnle : ¬ interval ≤ t₁ - st.last_health_counts_snapshot := not_le.mpr hlt
    simp [health_counts, hsnap, hnle]
  · have hb : (decide (interval ≤ t₂ - st.last_health_counts_snapshot) ||
        st.health_counts_snapshot.isNone) = true := by simp [hfresh]
    simp [health_counts, hb, compare_and_set]
  · have hb : (decide (interval ≤ t₃ - st₂.last_health_counts_snapshot) ||
        st₂.health_counts_snapshot.isNone) = true := by simp [hnone]
    simp [health_counts, hb, compare_and_set]

/-- Witness for C2 at concrete inputs: with a 10 ms interval and marker 0, a
call at time 5 returns the cached `⟨7, 8, 9⟩` unchanged even though the
counters changed to the constant 42; a call at time 10 recomputes; and a
call on a state with no snapshot recomputes at any time. -/
theorem health_counts_throttled_caching_witness :
    health_counts 10 5 ⟨fun _ => 42, some ⟨7, 8, 9⟩, 0⟩ =
      (some ⟨7, 8, 9⟩, ⟨fun _ => 42, some ⟨7, 8, 9⟩, 0⟩) ∧
    (health_counts 10 10 ⟨fun _ => 0, some ⟨7, 8, 9⟩, 0⟩).1 =
      some (fresh_health_counts fun _ => 0) ∧
    (health_counts 10 0 ⟨fun _ => 1, none, 0⟩).1 =
      some (fresh_health_counts fun _ => 1) :=
  health_counts_throttled_caching 10 5 10 0 ⟨fun _ => 0, some ⟨7, 8, 9⟩, 0⟩
    ⟨fun _ => 1, none, 0⟩ ⟨7, 8, 9⟩ (fun _ => 42) rfl (by decide) (by decide) rfl

/-- C7: a `HealthCounts` snapshot is determined by and returns exactly its
construction values (`total_requests`, `error_count`, `error_percentage`),
and a refreshing `health_counts` call supersedes the stored snapshot with a
newly constructed one computed from the counters alone — the same fresh
value whatever snapshot `hc` was stored before, so no existing snapshot is
ever mutated. -/
theorem health_counts_snapshot_immutable
    (t e p interval now l : ℤ) (c : RollingNumberEvent → ℤ) (hc : HealthCounts)
    (hfresh : interval ≤ now - l) :
    (HealthCounts.mk t e p).total_requests = t ∧
    (HealthCounts.mk t e p).error_count = e ∧
    (HealthCounts.mk t e p).error_percentage = p ∧
    (health_counts interval now ⟨c, some hc, l⟩).1 =
      some (fresh_health_counts c) ∧
    (health_counts interval now ⟨c, some hc, l⟩).2.health_counts_snapshot =
      some (fresh_health_counts c) := by
  refine ⟨rfl, rfl, rfl, ?_, ?_⟩ <;>
    simp [health_counts, compare_and_set, hfresh]

/-- Witness for C7 at a concrete input: construction values (1, 2, 3) are
returned verbatim, and a refresh over the zero counter supersedes the
stored `⟨9, 9, 9⟩` with the freshly computed snapshot. -/
theorem health_counts_snapshot_immutable_witness :
    (HealthCounts.mk 1 2 3).total_requests = 1 ∧
    (HealthCounts.mk 1 2 3).error_count = 2 ∧
    (HealthCounts.mk 1 2 3).error_percentage = 3 ∧
    (health_counts 0 0 ⟨fun _ => 0, some ⟨9, 9, 9⟩, 0⟩).1 =
      some (fresh_health_counts fun _ => 0) ∧
    (health_counts 0 0 ⟨fun _ => 0, some ⟨9, 9, 9⟩, 0⟩).2.health_counts_snapshot =
      some (fresh_health_counts fun _ => 0) :=
  health_counts_snapshot_immutable 1 2 3 0 0 0 (fun _ => 0) ⟨9, 9, 9⟩ (by decide)
